import Mathlib

/-!
Verification of the in-memory Flask CRUD API in `python_test/back/app.py`.

The embedding is a shallow one:
* JSON scalar values are the inductive `JVal`; a JSON object is an
  association list `JObj` (Python `dict` preserving insertion order).
* The two process-wide stores `users_db` and `items_db`, together with the
  wall clock, form the explicit state `St`.  Each call of
  `datetime.now().isoformat()` in the source reads the next value of the
  clock stream `St.clock` and advances the tick counter: timestamps are
  abstracted to the natural number read from the stream (ISO-8601 rendering
  is injective on instants, so equality of the rendered strings is equality
  of the reads).
* Each Flask handler becomes a pure function `... → St → result × St`.
  `jsonify(x), code` becomes a constructor of the handler's result type
  recording exactly the payload of the source, and `.status` maps each
  constructor to the HTTP status the client observes (uncaught Python
  exceptions surface as status 500 through `@app.errorhandler(500)`).
* Python numbers are modelled as rationals `ℚ`; `float(...)` becomes
  `pyFloat`, with conversion failures as the exceptions `ValueError` /
  `TypeError` that CPython raises.
-/

/-- Instants of the wall clock (abstract timestamps). -/
abbrev Time := Nat

/-- JSON scalar values as they occur in request bodies of this API. -/
inductive JVal where
  | jnull
  | jbool (b : Bool)
  | jnum (q : ℚ)
  | jstr (s : String)
  deriving DecidableEq, Repr

/-- A JSON object / Python dict body: ordered key-value pairs. -/
abbrev JObj := List (String × JVal)

/-- Python truthiness of a JSON scalar: `None`, `False`, `0` and `""` are
falsy, everything else truthy. -/
def JVal.truthy : JVal → Bool
  | .jnull => false
  | .jbool b => b
  | .jnum q => q != 0
  | .jstr s => s != ""

/-- Dict lookup (`d.get(k)` / `d[k]`), first matching key. -/
def alookup {α : Type} : List (String × α) → String → Option α
  | [], _ => none
  | (k2, v) :: rest, k => if k2 = k then some v else alookup rest k

/-- Dict membership (`k in d`). -/
def hasKey {α : Type} (m : List (String × α)) (k : String) : Bool :=
  (alookup m k).isSome

/-- Dict assignment `d[k] = v`: replace in place if the key is present,
append otherwise (Python dicts keep insertion order). -/
def aset {α : Type} : List (String × α) → String → α → List (String × α)
  | [], k, v => [(k, v)]
  | (k2, w) :: rest, k, v =>
      if k2 = k then (k, v) :: rest else (k2, w) :: aset rest k v

/-- Dict deletion (`d.pop(k)` after a membership check): drop the key's
entries. -/
def aerase {α : Type} : List (String × α) → String → List (String × α)
  | [], _ => []
  | (k2, v) :: rest, k =>
      if k2 = k then aerase rest k else (k2, v) :: aerase rest k

/-- Truthiness of `data.get(k)`: an absent key yields `None`, hence falsy. -/
def truthyKey (o : JObj) (k : String) : Bool :=
  ((alookup o k).getD JVal.jnull).truthy

/-- The `users_db` entity built by `create_user` / mutated by `update_user`.
Fields mirror the Python dict literal; `name` and `email` hold whatever JSON
scalar the request supplied. -/
structure User where
  id : String
  name : JVal
  email : JVal
  created_at : Time
  updated_at : Time
  deriving DecidableEq, Repr

/-- The `items_db` entity built by `create_item`; `price` has been through
`float(...)`. -/
structure Item where
  id : String
  name : JVal
  price : ℚ
  description : JVal
  created_at : Time
  deriving DecidableEq, Repr

/-- Process state: the two stores, plus the clock stream and the index of
the next `datetime.now()` read. -/
structure St where
  users_db : List (String × User)
  items_db : List (String × Item)
  clock : Nat → Time
  tick : Nat

/-- Exceptions the handlers can raise (uncaught in the source). -/
inductive PyExn where
  | typeError
  | valueError
  | attributeError
  deriving DecidableEq, Repr

/-- Result of `POST /users` (`create_user`): either
`jsonify({"error": msg}), 400` or `jsonify(user), 201`. -/
inductive CUResult where
  | badRequest (error : String)
  | created (u : User)
  deriving DecidableEq, Repr

/-- HTTP status of a `create_user` response. -/
def CUResult.status : CUResult → Nat
  | .badRequest _ => 400
  | .created _ => 201

/-- `create_user` (app.py lines 58-77): `data = request.get_json()`;
`if not data or not data.get('name')` → 400; else build the user with
`id = str(len(users_db) + 1)`, `email` defaulting to `''`, two successive
`datetime.now()` reads for `created_at` and `updated_at`, and insert. -/
def create_user (data : Option JObj) (s : St) : CUResult × St :=
  match data with
  | none => (.badRequest "缺少必要字段: name", s)
  | some o =>
    if o.isEmpty || !truthyKey o "name" then
      (.badRequest "缺少必要字段: name", s)
    else
      let user_id := toString (s.users_db.length + 1)
      let user : User :=
        { id := user_id
          name := (alookup o "name").getD JVal.jnull
          email := (alookup o "email").getD (JVal.jstr "")
          created_at := s.clock s.tick
          updated_at := s.clock (s.tick + 1) }
      (.created user,
        { s with users_db := aset s.users_db user_id user, tick := s.tick + 2 })

/-- Result of `PUT /users/<id>` (`update_user`): 404 error body, 200 with
the updated user, or an uncaught exception. -/
inductive UUResult where
  | notFound (error : String)
  | ok (u : User)
  | raised (e : PyExn)
  deriving DecidableEq, Repr

/-- HTTP status a client observes for an `update_user` response; an
uncaught exception reaches the client as 500 via `errorhandler(500)`. -/
def UUResult.status : UUResult → Nat
  | .notFound _ => 404
  | .ok _ => 200
  | .raised _ => 500

/-- `update_user` (app.py lines 79-98): absent id → 404 *before* the body
is parsed; then `'name' in data` / `'email' in data` overwrite the present
fields (`in` on a `None` body raises `TypeError`), and `updated_at` is
re-stamped from the clock. -/
def update_user (user_id : String) (data : Option JObj) (s : St) :
    UUResult × St :=
  match alookup s.users_db user_id with
  | none => (.notFound "用户不存在", s)
  | some u =>
    match data with
    | none => (.raised .typeError, s)
    | some o =>
      let u1 := if hasKey o "name" then
          { u with name := (alookup o "name").getD JVal.jnull } else u
      let u2 := if hasKey o "email" then
          { u1 with email := (alookup o "email").getD JVal.jnull } else u1
      let u3 := { u2 with updated_at := s.clock s.tick }
      (.ok u3,
        { s with users_db := aset s.users_db user_id u3, tick := s.tick + 1 })

/-- Result of `DELETE /users/<id>`: 404 error body, or 200 with
`jsonify({"message": msg, "user": deleted_user})`. -/
inductive DUResult where
  | notFound (error : String)
  | ok (message : String) (u : User)
  deriving DecidableEq, Repr

/-- HTTP status of a `delete_user` response. -/
def DUResult.status : DUResult → Nat
  | .notFound _ => 404
  | .ok _ _ => 200

/-- `delete_user` (app.py lines 100-111): absent id → 404, else pop the
entry and return the removed record with the deletion message. -/
def delete_user (user_id : String) (s : St) : DUResult × St :=
  match alookup s.users_db user_id with
  | none => (.notFound "用户不存在", s)
  | some u =>
      (.ok "用户已删除" u, { s with users_db := aerase s.users_db user_id })

/-- Result of `GET /users/<id>`: the user (200) or a 404 error body. -/
inductive GUResult where
  | ok (u : User)
  | notFound (error : String)
  deriving DecidableEq, Repr

/-- HTTP status of a `get_user` response. -/
def GUResult.status : GUResult → Nat
  | .ok _ => 200
  | .notFound _ => 404

/-- `get_user` (app.py lines 49-56): `users_db.get(user_id)`. -/
def get_user (user_id : String) (s : St) : GUResult × St :=
  match alookup s.users_db user_id with
  | some u => (.ok u, s)
  | none => (.notFound "用户不存在", s)

/-- `get_users` (app.py lines 40-47): `jsonify({"users":
list(users_db.values()), "count": len(users_db)})`, always 200. -/
def get_users (s : St) : (List User × Nat) × St :=
  ((s.users_db.map Prod.snd, s.users_db.length), s)

/-- `hay.startswith(needle)` on character lists. -/
def startsWithChars : List Char → List Char → Bool
  | _, [] => true
  | [], _ :: _ => false
  | h :: hs, n :: ns => h = n && startsWithChars hs ns

/-- Python substring test `needle in hay` on character lists. -/
def containsChars : List Char → List Char → Bool
  | [], needle => needle.isEmpty
  | h :: hs, needle => startsWithChars (h :: hs) needle || containsChars hs needle

/-- `query.lower() in name.lower()`: case-insensitive substring test
(`str.lower()` lowercases character by character). -/
def lowerContains (hay needle : String) : Bool :=
  containsChars (hay.toList.map Char.toLower) (needle.toList.map Char.toLower)

/-- Result of `GET /items`: the (possibly filtered) item list with its
count and the echoed query, or an uncaught exception. -/
inductive GIResult where
  | ok (items : List Item) (count : Nat) (query : String)
  | raised (e : PyExn)
  deriving DecidableEq, Repr

/-- HTTP status a client observes for a `get_items` response. -/
def GIResult.status : GIResult → Nat
  | .ok _ _ _ => 200
  | .raised _ => 500

/-- The list comprehension of `get_items`:
`[item for item in items if query.lower() in item['name'].lower()]`.
Calling `.lower()` on a non-string name raises `AttributeError` at the
first offending element. -/
def filterItems (query : String) : List Item → Except PyExn (List Item)
  | [] => .ok []
  | it :: rest =>
    match it.name with
    | JVal.jstr n =>
      match filterItems query rest with
      | .ok tl => .ok (if lowerContains n query then it :: tl else tl)
      | .error e => .error e
    | _ => .error .attributeError

/-- `get_items` (app.py lines 115-128): `query = request.args.get('q', '')`;
a non-empty query filters by case-insensitive substring on `name`. -/
def get_items (q : Option String) (s : St) : GIResult × St :=
  let query := q.getD ""
  let items := s.items_db.map Prod.snd
  if query = "" then
    (.ok items items.length query, s)
  else
    match filterItems query items with
    | .ok fitems => (.ok fitems fitems.length query, s)
    | .error e => (.raised e, s)

/-- Digit run to a natural number, most significant first. -/
def digitsToNat (cs : List Char) : Nat :=
  cs.foldl (fun a c => a * 10 + (c.toNat - 48)) 0

/-- Decimal literal parsing for Python `float(str)`, on the sign /
integer-part / fraction fragment the API exchanges (no exponents,
`inf`/`nan` or underscores, which no claim exercises): `[+-]? digits`,
`[+-]? digits . digits`, with either digit run optionally empty but not
both. Unparsable strings yield `none` (CPython: `ValueError`). -/
def pyParseFloat (str : String) : Option ℚ :=
  let cs := str.toList
  let neg := cs.head? = some '-'
  let cs := if cs.head? = some '-' || cs.head? = some '+' then cs.tail else cs
  let ip := cs.takeWhile (fun c => c ≠ '.')
  let rest := cs.drop ip.length
  match rest with
  | [] =>
    if !ip.isEmpty && ip.all Char.isDigit then
      let n : Int := digitsToNat ip
      some (mkRat (if neg then -n else n) 1)
    else none
  | _ :: fp =>
    if ip.all Char.isDigit && fp.all Char.isDigit &&
        (!ip.isEmpty || !fp.isEmpty) && fp.all (fun c => c ≠ '.') then
      let n : Int := digitsToNat ip * 10 ^ fp.length + digitsToNat fp
      some (mkRat (if neg then -n else n) (10 ^ fp.length))
    else none

/-- Python `float(x)` on a JSON scalar: numbers pass through, booleans
become 0/1, strings are parsed (`ValueError` when unparsable), `None`
raises `TypeError`. -/
def pyFloat : JVal → Except PyExn ℚ
  | .jnum q => .ok q
  | .jbool b => .ok (if b then 1 else 0)
  | .jstr str =>
    match pyParseFloat str with
    | some q => .ok q
    | none => .error .valueError
  | .jnull => .error .typeError

/-- Result of `POST /items` (`create_item`): 400 error body naming the
missing field, 201 with the created item, or an uncaught exception. -/
inductive CIResult where
  | badRequest (error : String)
  | created (it : Item)
  | raised (e : PyExn)
  deriving DecidableEq, Repr

/-- HTTP status a client observes for a `create_item` response; an
uncaught exception reaches the client as 500 via `errorhandler(500)`. -/
def CIResult.status : CIResult → Nat
  | .badRequest _ => 400
  | .created _ => 201
  | .raised _ => 500

/-- `create_item` (app.py lines 130-151): `for field in ['name', 'price']:
if field not in data` → 400 naming that field (`in` on a `None` body raises
`TypeError`); then `price` goes through `float(...)` before the clock is
read, `description` defaults to `''`, and the item is inserted. -/
def create_item (data : Option JObj) (s : St) : CIResult × St :=
  match data with
  | none => (.raised .typeError, s)
  | some o =>
    if !hasKey o "name" then (.badRequest "缺少必要字段: name", s)
    else if !hasKey o "price" then (.badRequest "缺少必要字段: price", s)
    else
      match pyFloat ((alookup o "price").getD JVal.jnull) with
      | .error e => (.raised e, s)
      | .ok p =>
        let item_id := toString (s.items_db.length + 1)
        let item : Item :=
          { id := item_id
            name := (alookup o "name").getD JVal.jnull
            price := p
            description := (alookup o "description").getD (JVal.jstr "")
            created_at := s.clock s.tick }
        (.created item,
          { s with items_db := aset s.items_db item_id item, tick := s.tick + 1 })

/-- Result of `DELETE /items/<id>`. -/
inductive DIResult where
  | notFound (error : String)
  | ok (message : String) (it : Item)
  deriving DecidableEq, Repr

/-- HTTP status of a `delete_item` response. -/
def DIResult.status : DIResult → Nat
  | .notFound _ => 404
  | .ok _ _ => 200

/-- `delete_item` (app.py lines 153-164). -/
def delete_item (item_id : String) (s : St) : DIResult × St :=
  match alookup s.items_db item_id with
  | none => (.notFound "物品不存在", s)
  | some it =>
      (.ok "物品已删除" it, { s with items_db := aerase s.items_db item_id })

/-- Specification-side predicate (from the spec's words in §4.3): the item's
`name` contains the query as a case-insensitive substring. -/
def nameMatches (query : String) (it : Item) : Bool :=
  match it.name with
  | JVal.jstr n => lowerContains n query
  | _ => false

/-- The item's `name` is a JSON string (the data-model invariant of §3). -/
def isStrName (it : Item) : Bool :=
  match it.name with
  | JVal.jstr _ => true
  | _ => false

/-- Empty store with the identity clock. -/
def stId : St := ⟨[], [], fun n => n, 0⟩

/-- Empty store with a constant clock (no tick ever advances the reading). -/
def stConst : St := ⟨[], [], fun _ => 7, 0⟩

/-- A stored user for concrete runs. -/
def u0 : User := ⟨"1", JVal.jstr "Alice", JVal.jstr "", 0, 0⟩

/-- Store holding `u0` under key "1", clock reading `n + 5` at tick `n`. -/
def stW : St := ⟨[("1", u0)], [], fun n => n + 5, 0⟩

/-- Concrete items for the query-filter runs. -/
def widgetI : Item := ⟨"1", JVal.jstr "Widget", 5, JVal.jstr "", 0⟩

/-- Second concrete item. -/
def gadgetI : Item := ⟨"2", JVal.jstr "Gadget", 6, JVal.jstr "", 0⟩

/-- Store holding the two items. -/
def stItems : St := ⟨[], [("1", widgetI), ("2", gadgetI)], fun n => n, 0⟩

/-- State after creating user "A" in the empty store. -/
def c3_s1 : St := (create_user (some [("name", JVal.jstr "A")]) stId).2

/-- State after also creating user "B". -/
def c3_s2 : St := (create_user (some [("name", JVal.jstr "B")]) c3_s1).2

/-- State after deleting the user with id "1". -/
def c3_s3 : St := (delete_user "1" c3_s2).2

/-- Looking up the key just assigned finds the assigned value. -/
theorem alookup_aset_self {α : Type} (m : List (String × α)) (k : String)
    (v : α) : alookup (aset m k v) k = some v := by
  induction m with
  | nil => simp [aset, alookup]
  | cons p rest ih =>
    obtain ⟨k2, w⟩ := p
    by_cases h : k2 = k
    · simp [aset, h, alookup]
    · simp [aset, h, alookup, ih]

/-- A deleted key is no longer found. -/
theorem alookup_aerase_self {α : Type} (m : List (String × α)) (k : String) :
    alookup (aerase m k) k = none := by
  induction m with
  | nil => rfl
  | cons p rest ih =>
    obtain ⟨k2, w⟩ := p
    by_cases h : k2 = k
    · simp [aerase, h, ih]
    · simp [aerase, h, alookup, ih]

/-- On a store whose item names are all strings, the comprehension of
`get_items` raises nothing and computes the plain filter by `nameMatches`. -/
theorem filterItems_eq_filter (q : String) (items : List Item)
    (h : ∀ it ∈ items, isStrName it = true) :
    filterItems q items = Except.ok (items.filter (nameMatches q)) := by
  induction items with
  | nil => rfl
  | cons it rest ih =>
    have hh := h it (by simp)
    have ht : ∀ x ∈ rest, isStrName x = true := fun x hx => h x (by simp [hx])
    cases hname : it.name with
    | jstr n => simp [filterItems, hname, ih ht, List.filter_cons, nameMatches]
    | jnull => simp [isStrName, hname] at hh
    | jbool b => simp [isStrName, hname] at hh
    | jnum qq => simp [isStrName, hname] at hh

/-- C1 counterexample: running `create_user` on the empty store with body
`{"name": "Alice"}` under the identity clock stamps `created_at = 0` but
`updated_at = 1` — the source reads `datetime.now()` twice, so the two
timestamps need not be equal, refuting the claim's `created_at = updated_at`
conjunct. -/
theorem create_user_timestamps_can_differ :
    (create_user (some [("name", JVal.jstr "Alice")]) stId).1 =
      CUResult.created
        { id := "1", name := JVal.jstr "Alice", email := JVal.jstr ""
          created_at := 0, updated_at := 1 }
    ∧ (0 : Time) ≠ 1 := by
  exact ⟨rfl, by decide⟩

/-- C1 (amended): for every request body with a truthy `name`, `create_user`
succeeds with status 201; the created user has id equal to the decimal
string of (number of users before insertion + 1), name from the body, email
from the body or `""` when absent, and `created_at`, `updated_at` stamped
from two successive clock reads in that order — hence equal whenever the
clock does not advance between the two reads; the user is inserted under its
id. -/
theorem create_user_success_spec (s : St) (o : JObj)
    (h : truthyKey o "name" = true) :
    (create_user (some o) s).1 = CUResult.created
      { id := toString (s.users_db.length + 1)
        name := (alookup o "name").getD JVal.jnull
        email := (alookup o "email").getD (JVal.jstr "")
        created_at := s.clock s.tick
        updated_at := s.clock (s.tick + 1) }
    ∧ (create_user (some o) s).1.status = 201
    ∧ alookup (create_user (some o) s).2.users_db
        (toString (s.users_db.length + 1)) = some
      { id := toString (s.users_db.length + 1)
        name := (alookup o "name").getD JVal.jnull
        email := (alookup o "email").getD (JVal.jstr "")
        created_at := s.clock s.tick
        updated_at := s.clock (s.tick + 1) }
    ∧ (s.clock s.tick = s.clock (s.tick + 1) →
        (create_user (some o) s).1 = CUResult.created
          { id := toString (s.users_db.length + 1)
            name := (alookup o "name").getD JVal.jnull
            email := (alookup o "email").getD (JVal.jstr "")
            created_at := s.clock s.tick
            updated_at := s.clock s.tick }) := by
  cases o with
  | nil => simp [truthyKey, alookup, JVal.truthy] at h
  | cons p rest =>
    refine ⟨?_, ?_, ?_, ?_⟩
    · simp [create_user, h]
    · simp [create_user, h, CUResult.status]
    · simp [create_user, h, alookup_aset_self]
    · intro heq
      simp [create_user, h, ← heq]

/-- C1 witness: with the constant clock both reads coincide, and creating
"Alice" in the empty store yields the user with equal timestamps. -/
theorem create_user_success_spec_witness :
    (create_user (some [("name", JVal.jstr "Alice")]) stConst).1 =
      CUResult.created
        { id := "1", name := JVal.jstr "Alice", email := JVal.jstr ""
          created_at := 7, updated_at := 7 } := by
  have h := (create_user_success_spec stConst [("name", JVal.jstr "Alice")]
    (by decide)).2.2.2 rfl
  rw [h]
  decide

/-- C3: create two users ("1" and "2"), delete "1"; the store still holds
the entity with id "2", and the next create computes id `str(1 + 1) = "2"`,
colliding with it — ids are not unique across deletions and insertions. -/
theorem id_reuse_after_delete :
    alookup c3_s3.users_db "2" =
      some { id := "2", name := JVal.jstr "B", email := JVal.jstr ""
             created_at := 2, updated_at := 3 }
    ∧ (create_user (some [("name", JVal.jstr "C")]) c3_s3).1 =
        CUResult.created
          { id := "2", name := JVal.jstr "C", email := JVal.jstr ""
            created_at := 4, updated_at := 5 } := by
  exact ⟨rfl, rfl⟩

/-- C5: whenever the parsed body is `None` or its `name` is absent or falsy,
`create_user` returns the 400 response whose body is
`{"error": "缺少必要字段: name"}` and leaves the state untouched. -/
theorem create_user_missing_name (data : Option JObj) (s : St)
    (h : data = none ∨ ∃ o, data = some o ∧ truthyKey o "name" = false) :
    (create_user data s).1 = CUResult.badRequest "缺少必要字段: name"
    ∧ (create_user data s).1.status = 400
    ∧ (create_user data s).2 = s := by
  rcases h with h | ⟨o, rfl, ht⟩
  · subst h
    exact ⟨rfl, rfl, rfl⟩
  · refine ⟨?_, ?_, ?_⟩ <;> simp [create_user, ht, CUResult.status]

/-- C5 witness: the body `{"name": ""}` (present but falsy) is rejected
with 400 and the empty store stays empty. -/
theorem create_user_missing_name_witness :
    (create_user (some [("name", JVal.jstr "")]) stId).1 =
      CUResult.badRequest "缺少必要字段: name"
    ∧ (create_user (some [("name", JVal.jstr "")]) stId).1.status = 400
    ∧ (create_user (some [("name", JVal.jstr "")]) stId).2 = stId :=
  create_user_missing_name (some [("name", JVal.jstr "")]) stId
    (Or.inr ⟨[("name", JVal.jstr "")], rfl, by decide⟩)

/-- C9: the three GET handlers return the state they received: no GET
request ever mutates the user store, the item store, or the clock. -/
theorem get_handlers_no_mutation (s : St) (user_id : String)
    (q : Option String) :
    (get_users s).2 = s ∧ (get_user user_id s).2 = s
    ∧ (get_items q s).2 = s := by
  refine ⟨rfl, ?_, ?_⟩
  · unfold get_user
    cases alookup s.users_db user_id <;> rfl
  · unfold get_items
    dsimp only
    split
    · rfl
    · split <;> rfl

/-- C10: on a body that parses to `None`, `create_user` answers a handled
400, while `create_item` and (for an id present in the store) `update_user`
run `in` on `None`, raise `TypeError`, and surface as 500 — the three
body-taking endpoints disagree on this edge case. -/
theorem none_body_disagreement (s : St) (user_id : String) (u : User)
    (h : alookup s.users_db user_id = some u) :
    (create_user none s).1 = CUResult.badRequest "缺少必要字段: name"
    ∧ (create_user none s).1.status = 400
    ∧ (create_item none s).1 = CIResult.raised PyExn.typeError
    ∧ (create_item none s).1.status = 500
    ∧ (update_user user_id none s).1 = UUResult.raised PyExn.typeError
    ∧ (update_user user_id none s).1.status = 500 := by
  refine ⟨rfl, rfl, rfl, rfl, ?_, ?_⟩ <;>
    simp [update_user, h, UUResult.status]

/-- C10 witness: the store holding Alice under id "1". -/
theorem none_body_disagreement_witness :
    (create_user none stW).1 = CUResult.badRequest "缺少必要字段: name"
    ∧ (create_user none stW).1.status = 400
    ∧ (create_item none stW).1 = CIResult.raised PyExn.typeError
    ∧ (create_item none stW).1.status = 500
    ∧ (update_user "1" none stW).1 = UUResult.raised PyExn.typeError
    ∧ (update_user "1" none stW).1.status = 500 :=
  none_body_disagreement stW "1" u0 rfl

/-- C2: `update_user` answers 404 (state untouched) when the id is absent;
when the id is bound to `u`, the returned user keeps `id` and `created_at`,
overwrites `name` / `email` exactly when the key occurs in the body,
re-stamps `updated_at` from the clock, carries status 200, and is stored
back under the id. -/
theorem update_user_partial_update (user_id : String) (o : JObj) (s : St) :
    (alookup s.users_db user_id = none →
      update_user user_id (some o) s = (UUResult.notFound "用户不存在", s))
    ∧ (∀ u, alookup s.users_db user_id = some u →
      (update_user user_id (some o) s).1 = UUResult.ok
        { id := u.id
          name := if hasKey o "name" then (alookup o "name").getD JVal.jnull
                  else u.name
          email := if hasKey o "email" then (alookup o "email").getD JVal.jnull
                   else u.email
          created_at := u.created_at
          updated_at := s.clock s.tick }
      ∧ (update_user user_id (some o) s).1.status = 200
      ∧ alookup (update_user user_id (some o) s).2.users_db user_id = some
        { id := u.id
          name := if hasKey o "name" then (alookup o "name").getD JVal.jnull
                  else u.name
          email := if hasKey o "email" then (alookup o "email").getD JVal.jnull
                   else u.email
          created_at := u.created_at
          updated_at := s.clock s.tick }) := by
  constructor
  · intro h
    simp [update_user, h]
  · intro u hu
    refine ⟨?_, ?_, ?_⟩ <;>
      cases hn : hasKey o "name" <;> cases he : hasKey o "email" <;>
        simp [update_user, hu, hn, he, UUResult.status, alookup_aset_self]

/-- C2 witness: updating only `email` of the stored Alice keeps her name
and creation stamp and re-stamps `updated_at` to the clock reading 5. -/
theorem update_user_partial_update_witness :
    (update_user "1" (some [("email", JVal.jstr "a@x.com")]) stW).1 =
      UUResult.ok
        { id := "1", name := JVal.jstr "Alice", email := JVal.jstr "a@x.com"
          created_at := 0, updated_at := 5 } := by
  have h := ((update_user_partial_update "1"
    [("email", JVal.jstr "a@x.com")] stW).2 u0 rfl).1
  rw [h]
  decide

/-- C4: `create_item` on a parsed JSON object answers 400 exactly when the
`name` key or the `price` key is absent (pure presence test), naming the
first missing field in the order `[name, price]`; and the presence-only
check differs from `create_user`'s truthiness check: the body
`{"name": "", "price": 1}` passes `create_item` (201) but fails
`create_user` (400). -/
theorem create_item_requires_name_price (o : JObj) (s : St) :
    ((create_item (some o) s).1.status = 400 ↔
      hasKey o "name" = false ∨ hasKey o "price" = false)
    ∧ (hasKey o "name" = false →
        (create_item (some o) s).1 = CIResult.badRequest "缺少必要字段: name")
    ∧ (hasKey o "name" = true → hasKey o "price" = false →
        (create_item (some o) s).1 = CIResult.badRequest "缺少必要字段: price")
    ∧ (create_item (some [("name", JVal.jstr ""), ("price", JVal.jnum 1)])
        s).1.status = 201
    ∧ (create_user (some [("name", JVal.jstr ""), ("price", JVal.jnum 1)])
        s).1.status = 400 := by
  refine ⟨?_, ?_, ?_, ?_, ?_⟩
  · cases hn : hasKey o "name" <;> cases hp : hasKey o "price" <;>
      simp [create_item, hn, hp, CIResult.status]
    cases hf : pyFloat ((alookup o "price").getD JVal.jnull) <;>
      simp [hf, CIResult.status]
  · intro hn
    simp [create_item, hn]
  · intro hn hp
    simp [create_item, hn, hp]
  · rfl
  · rfl

/-- C4 witness: a body lacking `price` is rejected naming `price`, and the
empty object is rejected naming `name` (the first missing field). -/
theorem create_item_requires_name_price_witness :
    (create_item (some [("name", JVal.jstr "W")]) stId).1 =
      CIResult.badRequest "缺少必要字段: price"
    ∧ (create_item (some ([] : JObj)) stId).1 =
      CIResult.badRequest "缺少必要字段: name" :=
  ⟨(create_item_requires_name_price [("name", JVal.jstr "W")] stId).2.2.1
      (by decide) (by decide),
   (create_item_requires_name_price [] stId).2.1 (by decide)⟩

/-- C7: `delete_user` answers 404 (state untouched) when the id is absent;
when the id is bound to `u` it answers 200 with the deletion message and the
removed record, the id no longer resolves in the store, and a second delete
of the same id answers 404. -/
theorem delete_user_remove_then_404 (user_id : String) (s : St) :
    (alookup s.users_db user_id = none →
      delete_user user_id s = (DUResult.notFound "用户不存在", s))
    ∧ (∀ u, alookup s.users_db user_id = some u →
      (delete_user user_id s).1 = DUResult.ok "用户已删除" u
      ∧ (delete_user user_id s).1.status = 200
      ∧ alookup (delete_user user_id s).2.users_db user_id = none
      ∧ (delete_user user_id (delete_user user_id s).2).1 =
          DUResult.notFound "用户不存在") := by
  constructor
  · intro h
    simp [delete_user, h]
  · intro u hu
    refine ⟨?_, ?_, ?_, ?_⟩ <;>
      simp [delete_user, hu, DUResult.status, alookup_aerase_self]

/-- C7 witness: deleting Alice twice from `stW` gives 200 with the removed
record, then 404. -/
theorem delete_user_remove_then_404_witness :
    (delete_user "1" stW).1 = DUResult.ok "用户已删除" u0
    ∧ (delete_user "1" stW).1.status = 200
    ∧ alookup (delete_user "1" stW).2.users_db "1" = none
    ∧ (delete_user "1" (delete_user "1" stW).2).1 =
        DUResult.notFound "用户不存在" :=
  (delete_user_remove_then_404 "1" stW).2 u0 rfl

/-- C6: on a store whose item names are strings (the data-model invariant),
`get_items` with an absent or empty query returns every stored item with its
count and echoes `""`; with a non-empty query it returns exactly the items
whose name contains the query as a case-insensitive substring, the count of
that filtered list, and the echoed query; the status is always 200. -/
theorem get_items_filter_spec (q : Option String) (s : St)
    (h : s.items_db.all (fun p => isStrName p.2) = true) :
    (q.getD "" = "" →
      (get_items q s).1 = GIResult.ok (s.items_db.map Prod.snd)
        (s.items_db.map Prod.snd).length "")
    ∧ (q.getD "" ≠ "" →
      (get_items q s).1 = GIResult.ok
        ((s.items_db.map Prod.snd).filter (nameMatches (q.getD "")))
        ((s.items_db.map Prod.snd).filter (nameMatches (q.getD ""))).length
        (q.getD ""))
    ∧ (get_items q s).1.status = 200 := by
  have h2 : ∀ it ∈ s.items_db.map Prod.snd, isStrName it = true := by
    intro it hit
    rw [List.mem_map] at hit
    obtain ⟨p, hp, rfl⟩ := hit
    exact List.all_eq_true.mp h p hp
  refine ⟨?_, ?_, ?_⟩
  · intro hq
    simp [get_items, hq]
  · intro hq
    simp [get_items, hq, filterItems_eq_filter _ _ h2]
  · by_cases hq : q.getD "" = ""
    · simp [get_items, hq, GIResult.status]
    · simp [get_items, hq, filterItems_eq_filter _ _ h2, GIResult.status]

/-- C6 witness: with items named "Widget" and "Gadget" stored, the query
"wid" returns only the Widget item, count 1, query echoed. -/
theorem get_items_filter_spec_witness :
    (get_items (some "wid") stItems).1 =
      GIResult.ok ((stItems.items_db.map Prod.snd).filter (nameMatches "wid"))
        ((stItems.items_db.map Prod.snd).filter (nameMatches "wid")).length
        "wid"
    ∧ (stItems.items_db.map Prod.snd).filter (nameMatches "wid") =
        [widgetI] :=
  ⟨(get_items_filter_spec (some "wid") stItems (by decide)).2.1 (by decide),
   by decide⟩

/-- C8: for a parsed body with both `name` and `price` keys, if `float` on
the price value yields `q` then `create_item` answers 201 with the item
holding the coerced numeric price `q`, `description` defaulting to `""` and
`created_at` stamped from the clock; if the conversion raises, the handler
re-raises that exception and the client sees 500, not 400. The string
"9.99" coerces to the numeric value 9.99. -/
theorem create_item_success_spec (o : JObj) (s : St)
    (hn : hasKey o "name" = true) (hp : hasKey o "price" = true) :
    (∀ q, pyFloat ((alookup o "price").getD JVal.jnull) = Except.ok q →
      (create_item (some o) s).1 = CIResult.created
        { id := toString (s.items_db.length + 1)
          name := (alookup o "name").getD JVal.jnull
          price := q
          description := (alookup o "description").getD (JVal.jstr "")
          created_at := s.clock s.tick }
      ∧ (create_item (some o) s).1.status = 201)
    ∧ (∀ e, pyFloat ((alookup o "price").getD JVal.jnull) = Except.error e →
      (create_item (some o) s).1 = CIResult.raised e
      ∧ (create_item (some o) s).1.status = 500
      ∧ ¬ (create_item (some o) s).1.status = 400)
    ∧ pyFloat (JVal.jstr "9.99") = Except.ok (mkRat 999 100) := by
  refine ⟨?_, ?_, ?_⟩
  · intro q hq
    refine ⟨?_, ?_⟩ <;> simp [create_item, hn, hp, hq, CIResult.status]
  · intro e he
    refine ⟨?_, ?_, ?_⟩ <;> simp [create_item, hn, hp, he, CIResult.status]
  · rfl

/-- C8 witness: posting `{"name": "Widget", "price": "9.99"}` to the empty
store creates the item with numeric price 999/100. -/
theorem create_item_success_spec_witness :
    (create_item (some [("name", JVal.jstr "Widget"),
        ("price", JVal.jstr "9.99")]) stId).1 =
      CIResult.created
        { id := "1", name := JVal.jstr "Widget", price := mkRat 999 100
          description := JVal.jstr "", created_at := 0 } := by
  have h := ((create_item_success_spec
    [("name", JVal.jstr "Widget"), ("price", JVal.jstr "9.99")] stId
    (by decide) (by decide)).1 (mkRat 999 100) (by rfl)).1
  rw [h]
  rfl
